import Mathlib

/-!
Verification of the real-time quote distribution subsystem of the
project-horizon backend.

The TypeScript sources are shallowly embedded as follows.

* JavaScript numbers are idealised as real numbers `ℝ`; the JS idiom
  `parseFloat(x.toFixed(2))` (round to two decimal digits, half away from
  zero on positive values) is modelled by `round2`, half-up rounding to a
  multiple of `1/100`.
* `Math.random()` samples and the Box-Muller uniform inputs are passed in
  explicitly (record `MockRand`), so every "random" code path is a pure
  function of its sample arguments.
* Network requests are passed in as data: a provider response is an
  `Option` of the parsed payload (`none` models a timeout / non-2xx /
  missing body, exactly the cases the service catches).
* The process-wide mutable map `lastMockPrices : Map<string, number>` is
  threaded explicitly as a value of type `String → Option ℝ`.
* `Date.now()` is passed in as a parameter `now`.

Each section names the source file it embeds.
-/

/-! ### src/utils/stock-simulator.ts -/

/-- `parseFloat(x.toFixed(2))`: round to the nearest multiple of 1/100. -/
noncomputable def round2 (x : ℝ) : ℝ := (round (100 * x) : ℤ) / 100

/-- `randomNormal(mean, stdDev)` (Box-Muller transform) with the two
`Math.random()` samples `u1`, `u2` passed explicitly:
`z0 = sqrt(-2 ln u1) * cos(2 π u2)`, returning `z0 * stdDev + mean`. -/
noncomputable def randomNormal (mean stdDev u1 u2 : ℝ) : ℝ :=
  Real.sqrt (-2 * Real.log u1) * Real.cos (2 * Real.pi * u2) * stdDev + mean

/-- `generateNextPrice(currentPrice, drift, volatility, timeStep)`:
one GBM step `currentPrice * exp(drift*dt + volatility*sqrt(dt)*Z)`,
with the random shock `Z = randomNormal(0, 1)` fed by samples `u1`, `u2`,
and the result rounded via `parseFloat(nextPrice.toFixed(2))`. -/
noncomputable def generateNextPrice (currentPrice drift volatility timeStep u1 u2 : ℝ) : ℝ :=
  round2 (currentPrice *
    Real.exp (drift * timeStep + volatility * Real.sqrt timeStep * randomNormal 0 1 u1 u2))

/-- `toUpperCase()`. (Structurally recursive unfolding of `String.toUpper`,
which maps `Char.toUpper` over the characters.) -/
def toUpperCase (s : String) : String := ⟨s.data.map Char.toUpper⟩

/-- Per-symbol statistical parameters returned by `getSymbolParameters`. -/
structure SymbolParams where
  drift : ℝ
  volatility : ℝ
  basePrice : ℝ

/-- `getSymbolParameters(symbol)`: static table keyed by the uppercased
symbol, with default `{drift: 0.10, volatility: 0.30, basePrice: 100}`. -/
noncomputable def getSymbolParameters (symbol : String) : SymbolParams :=
  match toUpperCase symbol with
  | "TSLA" => ⟨0.15, 0.60, 250⟩
  | "NVDA" => ⟨0.20, 0.50, 880⟩
  | "AAPL" => ⟨0.12, 0.30, 180⟩
  | "MSFT" => ⟨0.12, 0.28, 380⟩
  | "GOOGL" => ⟨0.10, 0.30, 140⟩
  | "AMZN" => ⟨0.12, 0.35, 170⟩
  | "META" => ⟨0.10, 0.40, 480⟩
  | "JNJ" => ⟨0.06, 0.15, 160⟩
  | "PG" => ⟨0.05, 0.15, 150⟩
  | "KO" => ⟨0.05, 0.18, 60⟩
  | "JPM" => ⟨0.08, 0.25, 190⟩
  | "BAC" => ⟨0.07, 0.28, 35⟩
  | _ => ⟨0.10, 0.30, 100⟩

/-! ### src/services/market-data.service.ts -/

/-- The `dataSource` union type `'finnhub' | 'alphavantage' | 'mock'`. -/
inductive DataSource
  | finnhub
  | alphavantage
  | mock
deriving DecidableEq

/-- The `Quote` interface. (`open` is a Lean keyword, so the `open` field
is called `openPrice` here.) -/
structure Quote where
  symbol : String
  price : ℝ
  change : ℝ
  changePercent : ℝ
  high : ℝ
  low : ℝ
  openPrice : ℝ
  previousClose : ℝ
  volume : ℝ
  timestamp : ℝ
  dataSource : DataSource
  isRealTime : Bool

/-- Parsed body of a Finnhub `/quote` response: fields `c h l o pc`. -/
structure FinnhubData where
  c : ℝ
  h : ℝ
  l : ℝ
  o : ℝ
  pc : ℝ

/-- Parsed `Global Quote` payload of an Alpha Vantage response, after
`parseFloat` of `02. open`, `03. high`, `04. low`, `05. price`,
`06. volume`, `08. previous close`, `09. change`, `10. change percent`. -/
structure AVData where
  openPrice : ℝ
  high : ℝ
  low : ℝ
  price : ℝ
  volume : ℝ
  previousClose : ℝ
  change : ℝ
  changePercent : ℝ

/-- `getQuoteFromFinnhub` applied to an already-received response body:
returns `none` for the thrown "Invalid symbol or no data" case
(`data.c === 0 && data.pc === 0`); otherwise builds the quote with
`change = price - previousClose` and
`changePercent = change / previousClose * 100`. -/
noncomputable def getQuoteFromFinnhub (symbol : String) (now : ℝ) (data : FinnhubData) :
    Option Quote :=
  if data.c = 0 ∧ data.pc = 0 then none
  else
    some
      { symbol := toUpperCase symbol
        price := data.c
        change := data.c - data.pc
        changePercent := (data.c - data.pc) / data.pc * 100
        high := data.h
        low := data.l
        openPrice := data.o
        previousClose := data.pc
        volume := 0
        timestamp := now
        dataSource := DataSource.finnhub
        isRealTime := true }

/-- `getQuoteFromAlphaVantage` applied to an already-received non-empty
`Global Quote` payload: every numeric field, including `change` and
`changePercent`, is taken verbatim from the provider response. -/
noncomputable def getQuoteFromAlphaVantage (symbol : String) (now : ℝ) (data : AVData) : Quote :=
  { symbol := toUpperCase symbol
    price := data.price
    change := data.change
    changePercent := data.changePercent
    high := data.high
    low := data.low
    openPrice := data.openPrice
    previousClose := data.previousClose
    volume := data.volume
    timestamp := now
    dataSource := DataSource.alphavantage
    isRealTime := true }

/-- The random samples consumed by one `getMockQuote` call:
`g1`/`g2` feed the Box-Muller pair inside `generateNextPrice`,
`o1`/`o2` feed the `randomNormal(0, 0.005)` open perturbation,
`rh`/`rl` are the `Math.random()` samples of the high/low perturbations,
`rv` the `Math.random()` sample of the volume. -/
structure MockRand where
  g1 : ℝ
  g2 : ℝ
  o1 : ℝ
  o2 : ℝ
  rh : ℝ
  rl : ℝ
  rv : ℝ

/-- `getMockQuote(symbol)`. `stored` is `this.lastMockPrices.get(symbol)`;
the second component of the result is the value the code writes back with
`this.lastMockPrices.set(symbol, price)`. The time step is
`1 / (252 * 78)` and `previousClose` is the static base price. -/
noncomputable def getMockQuote (symbol : String) (now : ℝ) (stored : Option ℝ) (r : MockRand) :
    Quote × ℝ :=
  let params := getSymbolParameters symbol
  let lastPrice := stored.getD params.basePrice
  let price := generateNextPrice lastPrice params.drift params.volatility (1 / (252 * 78)) r.g1 r.g2
  let previousClose := params.basePrice
  let change := price - previousClose
  let changePercent := change / previousClose * 100
  let openP := previousClose * (1 + randomNormal 0 0.005 r.o1 r.o2)
  let high := max price (max openP lastPrice) * (1 + r.rh * 0.005)
  let low := min price (min openP lastPrice) * (1 - r.rl * 0.005)
  ({ symbol := toUpperCase symbol
     price := round2 price
     change := round2 change
     changePercent := round2 changePercent
     high := round2 high
     low := round2 low
     openPrice := round2 openP
     previousClose := round2 previousClose
     volume := ((⌊r.rv * 10000000⌋ : ℤ) : ℝ)
     timestamp := now
     dataSource := DataSource.mock
     isRealTime := false }, price)

/-- `getQuote(symbol)`: try Finnhub, on failure try Alpha Vantage, on
failure fall back to `getMockQuote`. A `none` provider argument models a
failed request (timeout / non-2xx / empty payload); the Finnhub
invalid-symbol signature also advances the chain. Returns the quote and
the updated `lastMockPrices` map. -/
noncomputable def getQuote (symbol : String) (now : ℝ) (fh : Option FinnhubData)
    (av : Option AVData) (st : String → Option ℝ) (r : MockRand) :
    Quote × (String → Option ℝ) :=
  match fh.bind (fun d => getQuoteFromFinnhub symbol now d) with
  | some q => (q, st)
  | none =>
    match av with
    | some d => (getQuoteFromAlphaVantage symbol now d, st)
    | none =>
      let m := getMockQuote symbol now (st symbol) r
      (m.1, fun s => if s = symbol then some m.2 else st s)

/-! ### src/services/websocket-market.service.ts -/

/-- `stock:SYMBOL` room / Redis channel name. -/
def roomOf (symbol : String) : String := "stock:" ++ symbol

/-- Events emitted to one socket by the `subscribe` handler. -/
inductive SocketEvent
  | priceUpdate (q : Quote)
  | subscribedEvt (symbol room : String)

/-- The `socket.on('subscribe', ...)` handler's emissions to the
requesting socket, in program order: the handler uppercases the symbol,
fetches an initial quote with `getQuote`, then runs
`socket.emit('price_update', quote)` followed by
`socket.emit('subscribed', { symbol, room })`. -/
noncomputable def handleSubscribeEvents (rawSymbol : String) (now : ℝ) (fh : Option FinnhubData)
    (av : Option AVData) (st : String → Option ℝ) (r : MockRand) : List SocketEvent :=
  let symbol := toUpperCase rawSymbol
  let quote := (getQuote symbol now fh av st r).1
  [SocketEvent.priceUpdate quote, SocketEvent.subscribedEvt symbol (roomOf symbol)]

/-- Per-process state of `WebSocketMarketService` together with the
external resources it drives:
`members r` — sockets currently joined to room `r` (socket.io);
`subscribedSymbols` — the service's `subscribedSymbols : Set<string>`;
`activeSymbols` — the shared Redis set `active_symbols`;
`busSubCount r` — number of live upstream Redis channel subscriptions
for channel `r` (each `redisSubscriber.subscribe(r)` adds one;
`redisSubscriber.unsubscribe(r)` removes the channel entirely). -/
structure WSState where
  members : String → Finset ℕ
  subscribedSymbols : Finset String
  activeSymbols : Finset String
  busSubCount : String → ℕ

/-- Fresh service instance: no rooms, no subscriptions. -/
def initialWS : WSState := ⟨fun _ => ∅, ∅, ∅, fun _ => 0⟩

/-- Socket-layer actions handled by `handleSocketConnection`. -/
inductive WSAction
  | subscribe (sock : ℕ) (symbol : String)
  | unsubscribe (sock : ℕ) (symbol : String)
  | disconnect (sock : ℕ)

/-- One handler execution.
`subscribe`: `socket.join(room)`; if the symbol is not yet in
`subscribedSymbols`, subscribe the Redis channel, add the symbol to
`subscribedSymbols` and to the `active_symbols` set.
`unsubscribe`: `socket.leave(room)`; if the room is then empty,
unsubscribe the Redis channel and remove the symbol from both sets.
`disconnect`: socket.io removes the socket from all rooms; the handler
itself only logs. -/
def wsStep (st : WSState) : WSAction → WSState
  | WSAction.subscribe sock rawSym =>
    let symbol := toUpperCase rawSym
    let room := roomOf symbol
    let members1 := fun r => if r = room then insert sock (st.members r) else st.members r
    if symbol ∈ st.subscribedSymbols then
      { st with members := members1 }
    else
      { members := members1
        subscribedSymbols := insert symbol st.subscribedSymbols
        activeSymbols := insert symbol st.activeSymbols
        busSubCount := fun r => if r = room then st.busSubCount r + 1 else st.busSubCount r }
  | WSAction.unsubscribe sock rawSym =>
    let symbol := toUpperCase rawSym
    let room := roomOf symbol
    let members1 := fun r => if r = room then (st.members r).erase sock else st.members r
    if (st.members room).erase sock = ∅ then
      { members := members1
        subscribedSymbols := st.subscribedSymbols.erase symbol
        activeSymbols := st.activeSymbols.erase symbol
        busSubCount := fun r => if r = room then 0 else st.busSubCount r }
    else
      { st with members := members1 }
  | WSAction.disconnect sock =>
    { st with members := fun r => (st.members r).erase sock }

/-- State reached from a fresh service instance by a trace of actions. -/
def runWS (tr : List WSAction) : WSState := tr.foldl wsStep initialWS

/-- Inductive invariant of the fan-out manager: the number of live
upstream bus subscriptions of a channel is 1 if the channel belongs to a
symbol in `subscribedSymbols` and 0 otherwise, and every locally
subscribed symbol is registered in the shared active-symbol set. -/
def WSInv (st : WSState) : Prop :=
  (∀ r : String, st.busSubCount r =
      if r ∈ st.subscribedSymbols.image roomOf then 1 else 0) ∧
  st.subscribedSymbols ⊆ st.activeSymbols

/-! ### src/services/price-updater.service.ts -/

/-- Finnhub rate-limit batch cap. -/
def MAX_SYMBOLS_PER_UPDATE : ℕ := 5

/-- The provider / bus / store operations `fetchAndPublish` performs for
one symbol: `marketDataService.getQuote`, `publishPriceUpdate`, and the
`setEx('quote:SYMBOL', 10, ...)` cache write. -/
inductive TickEffect
  | fetchQuote (symbol : String)
  | publishUpdate (symbol : String)
  | cacheWrite (symbol : String)
deriving DecidableEq

/-- Symbol an effect acts on. -/
def TickEffect.symbol : TickEffect → String
  | TickEffect.fetchQuote s => s
  | TickEffect.publishUpdate s => s
  | TickEffect.cacheWrite s => s

/-- `fetchAndPublish(symbol)` effect sequence. -/
def fetchAndPublishEffects (symbol : String) : List TickEffect :=
  [TickEffect.fetchQuote symbol, TickEffect.publishUpdate symbol, TickEffect.cacheWrite symbol]

/-- One `updatePrices` tick applied to the `active_symbols` list read at
that tick: early return if empty, otherwise work on
`activeSymbols.slice(0, MAX_SYMBOLS_PER_UPDATE)`. -/
def updatePrices (activeSymbols : List String) : List TickEffect :=
  if activeSymbols.isEmpty then []
  else ((activeSymbols.take MAX_SYMBOLS_PER_UPDATE).map fetchAndPublishEffects).flatten

/-- Symbols the scheduler selects on tick number `tick` when the registry
stably contains `activeSymbols`: the cron job runs the same
`updatePrices` body every 5 seconds, so the selection is the same fixed
prefix on every tick. -/
def tickSelection (activeSymbols : List String) (_tick : ℕ) : List String :=
  activeSymbols.take MAX_SYMBOLS_PER_UPDATE

/-! ### Concrete sample values used in counterexamples -/

/-- A Box-Muller shock value for the NVDA statistics (drift 0.20,
volatility 0.50, time step 1/19656) that drives one GBM step from the
base price 880 to exactly 880.01: the exponent of the step becomes
`log (88001/88000)`. -/
noncomputable def nvdaShock : ℝ :=
  (Real.log (88001 / 88000) - (1 / 5) * (1 / 19656)) /
    ((1 / 2) * Real.sqrt (1 / 19656))

/-- Mock randomness realising `nvdaShock`: the first Box-Muller uniform is
`exp(-nvdaShock² / 2) ∈ (0, 1)` and the second is `0`, so
`randomNormal 0 1` returns exactly `nvdaShock`; the remaining samples are
inert. -/
noncomputable def nvdaRand : MockRand :=
  ⟨Real.exp (-(nvdaShock ^ 2) / 2), 0, 1, 0, 0, 0, 0⟩

/-- Mock randomness for the default statistics (base price 100) driving a
zero-move GBM step (price stays 100) while the open-perturbation normal
sample is `-2200`, making the derived open price negative: the Box-Muller
uniforms are `exp(-1/353808) ∈ (0,1)` with `1/2`, and
`exp(-2420000) ∈ (0,1)` with `1/2`; the high sample is 0 and the low
sample is `1/2`, both in `[0,1)`. -/
noncomputable def c9Rand : MockRand :=
  ⟨Real.exp (-(1 / 353808)), 1 / 2, Real.exp (-(2420000 : ℝ)), 1 / 2, 0, 1 / 2, 0⟩

/-! ### Helper lemmas: rounding -/

lemma round2_eq_self (x : ℝ) (k : ℤ) (h : 100 * x = (k : ℝ)) : round2 x = x := by
  have hx : x = (k : ℝ) / 100 := by
    field_simp
    linarith
  rw [round2, h, round_intCast, hx]

lemma round2_round2 (x : ℝ) : round2 (round2 x) = round2 x := by
  apply round2_eq_self _ (round (100 * x))
  rw [round2]
  ring

lemma round2_mono {a b : ℝ} (hab : a ≤ b) : round2 a ≤ round2 b := by
  rw [round2, round2]
  have h : round (100 * a) ≤ round (100 * b) := by
    rw [round_eq, round_eq]
    exact Int.floor_mono (by linarith)
  have h2 : ((round (100 * a) : ℤ) : ℝ) ≤ ((round (100 * b) : ℤ) : ℝ) := Int.cast_le.mpr h
  linarith

lemma round2_zero : round2 0 = 0 := round2_eq_self 0 0 (by norm_num)

lemma round2_nonneg {x : ℝ} (hx : 0 ≤ x) : 0 ≤ round2 x := by
  have h := round2_mono hx
  rwa [round2_zero] at h

lemma abs_round2_sub_le (x : ℝ) : |round2 x - x| ≤ 1 / 200 := by
  have h := abs_sub_round (100 * x)
  rw [abs_sub_comm] at h
  rw [round2]
  rw [show ((round (100 * x) : ℤ) : ℝ) / 100 - x = ((round (100 * x) : ℤ) - 100 * x) / 100 by
    ring]
  rw [abs_div]
  rw [abs_of_pos (by norm_num : (0:ℝ) < 100)]
  linarith

lemma round2_max (a b : ℝ) : round2 (max a b) = max (round2 a) (round2 b) := by
  rcases le_total a b with h | h
  · rw [max_eq_right h, max_eq_right (round2_mono h)]
  · rw [max_eq_left h, max_eq_left (round2_mono h)]

lemma round2_min (a b : ℝ) : round2 (min a b) = min (round2 a) (round2 b) := by
  rcases le_total a b with h | h
  · rw [min_eq_left h, min_eq_left (round2_mono h)]
  · rw [min_eq_right h, min_eq_right (round2_mono h)]

/-! ### Helper lemmas: simulator -/

lemma generateNextPrice_zero_drift_vol (p dt u1 u2 : ℝ) :
    generateNextPrice p 0 0 dt u1 u2 = round2 p := by
  simp [generateNextPrice]

lemma generateNextPrice_nonneg {p : ℝ} (hp : 0 ≤ p) (drift vol dt u1 u2 : ℝ) :
    0 ≤ generateNextPrice p drift vol dt u1 u2 := by
  rw [generateNextPrice]
  apply round2_nonneg
  positivity

lemma round2_generateNextPrice (p drift vol dt u1 u2 : ℝ) :
    round2 (generateNextPrice p drift vol dt u1 u2) = generateNextPrice p drift vol dt u1 u2 := by
  rw [generateNextPrice, round2_round2]

/-! ### Helper lemmas: quote resolution chain -/

lemma getQuote_finnhub (symbol : String) (now : ℝ) (d : FinnhubData) (av : Option AVData)
    (st : String → Option ℝ) (r : MockRand) (h : ¬(d.c = 0 ∧ d.pc = 0)) :
    getQuote symbol now (some d) av st r =
      ({ symbol := toUpperCase symbol
         price := d.c
         change := d.c - d.pc
         changePercent := (d.c - d.pc) / d.pc * 100
         high := d.h
         low := d.l
         openPrice := d.o
         previousClose := d.pc
         volume := 0
         timestamp := now
         dataSource := DataSource.finnhub
         isRealTime := true }, st) := by
  have hf : getQuoteFromFinnhub symbol now d =
      some
        { symbol := toUpperCase symbol
          price := d.c
          change := d.c - d.pc
          changePercent := (d.c - d.pc) / d.pc * 100
          high := d.h
          low := d.l
          openPrice := d.o
          previousClose := d.pc
          volume := 0
          timestamp := now
          dataSource := DataSource.finnhub
          isRealTime := true } := by
    rw [getQuoteFromFinnhub, if_neg h]
  simp [getQuote, hf]

lemma getQuote_finnhub_invalid (symbol : String) (now : ℝ) (d : FinnhubData)
    (av : Option AVData) (st : String → Option ℝ) (r : MockRand) (h : d.c = 0 ∧ d.pc = 0) :
    getQuote symbol now (some d) av st r = getQuote symbol now none av st r := by
  have hf : getQuoteFromFinnhub symbol now d = none := by
    rw [getQuoteFromFinnhub, if_pos h]
  simp [getQuote, hf]

lemma getQuote_av (symbol : String) (now : ℝ) (d : AVData) (st : String → Option ℝ)
    (r : MockRand) :
    getQuote symbol now none (some d) st r = (getQuoteFromAlphaVantage symbol now d, st) := rfl

lemma getQuote_mock (symbol : String) (now : ℝ) (st : String → Option ℝ) (r : MockRand) :
    getQuote symbol now none none st r =
      ((getMockQuote symbol now (st symbol) r).1,
        fun s => if s = symbol then some (getMockQuote symbol now (st symbol) r).2 else st s) :=
  rfl

lemma getMockQuote_price (symbol : String) (now : ℝ) (stored : Option ℝ) (r : MockRand) :
    (getMockQuote symbol now stored r).1.price =
      generateNextPrice (stored.getD (getSymbolParameters symbol).basePrice)
        (getSymbolParameters symbol).drift (getSymbolParameters symbol).volatility
        (1 / (252 * 78)) r.g1 r.g2 := by
  show round2 (generateNextPrice _ _ _ _ _ _) = _
  rw [round2_generateNextPrice]

lemma getMockQuote_snd (symbol : String) (now : ℝ) (stored : Option ℝ) (r : MockRand) :
    (getMockQuote symbol now stored r).2 =
      generateNextPrice (stored.getD (getSymbolParameters symbol).basePrice)
        (getSymbolParameters symbol).drift (getSymbolParameters symbol).volatility
        (1 / (252 * 78)) r.g1 r.g2 := rfl

lemma getMockQuote_snd_eq_price (symbol : String) (now : ℝ) (stored : Option ℝ) (r : MockRand) :
    (getMockQuote symbol now stored r).2 = (getMockQuote symbol now stored r).1.price := by
  rw [getMockQuote_snd, getMockQuote_price]

/-! ### Helper lemmas: fan-out manager invariant -/

lemma roomOf_injective : Function.Injective roomOf := by
  intro a b hab
  have hd : ("stock:" ++ a).data = ("stock:" ++ b).data := congrArg String.data hab
  rw [String.data_append, String.data_append] at hd
  have hdata : a.data = b.data := List.append_cancel_left hd
  obtain ⟨da⟩ := a
  obtain ⟨db⟩ := b
  exact congrArg String.mk hdata

lemma wsInv_initial : WSInv initialWS := by
  constructor
  · intro r
    simp [initialWS]
  · simp [initialWS]

lemma wsInv_step {st : WSState} (h : WSInv st) (a : WSAction) : WSInv (wsStep st a) := by
  obtain ⟨h1, h2⟩ := h
  cases a with
  | subscribe sock rawSym =>
    rw [wsStep]
    split
    · exact ⟨h1, h2⟩
    · rename_i hmem
      constructor
      · intro r
        by_cases hr : r = roomOf (toUpperCase rawSym)
        · subst hr
          have hnotin : roomOf (toUpperCase rawSym) ∉ st.subscribedSymbols.image roomOf := by
            intro hin
            rw [Finset.mem_image] at hin
            obtain ⟨s, hs, hsr⟩ := hin
            exact hmem (roomOf_injective hsr ▸ hs)
          have hcnt : st.busSubCount (roomOf (toUpperCase rawSym)) = 0 := by
            rw [h1, if_neg hnotin]
          have hin2 : roomOf (toUpperCase rawSym) ∈
              (insert (toUpperCase rawSym) st.subscribedSymbols).image roomOf := by
            rw [Finset.image_insert]
            exact Finset.mem_insert_self _ _
          simp [hcnt, hin2]
        · have himg : (r ∈ (insert (toUpperCase rawSym) st.subscribedSymbols).image roomOf) ↔
              (r ∈ st.subscribedSymbols.image roomOf) := by
            rw [Finset.image_insert, Finset.mem_insert]
            constructor
            · rintro (h' | h')
              · exact absurd h' hr
              · exact h'
            · exact Or.inr
          simp only [if_neg hr]
          rw [h1 r]
          exact if_congr himg.symm rfl rfl
      · exact Finset.insert_subset_insert _ h2
  | unsubscribe sock rawSym =>
    rw [wsStep]
    split
    · constructor
      · intro r
        by_cases hr : r = roomOf (toUpperCase rawSym)
        · subst hr
          have hnotin : roomOf (toUpperCase rawSym) ∉
              (st.subscribedSymbols.erase (toUpperCase rawSym)).image roomOf := by
            intro hin
            rw [Finset.mem_image] at hin
            obtain ⟨s, hs, hsr⟩ := hin
            exact (Finset.mem_erase.mp hs).1 (roomOf_injective hsr)
          simp [hnotin]
        · have himg : (r ∈ (st.subscribedSymbols.erase (toUpperCase rawSym)).image roomOf) ↔
              (r ∈ st.subscribedSymbols.image roomOf) := by
            rw [Finset.mem_image, Finset.mem_image]
            constructor
            · rintro ⟨s, hs, rfl⟩
              exact ⟨s, (Finset.mem_erase.mp hs).2, rfl⟩
            · rintro ⟨s, hs, rfl⟩
              refine ⟨s, Finset.mem_erase.mpr ⟨?_, hs⟩, rfl⟩
              rintro rfl
              exact hr rfl
          simp only [if_neg hr]
          rw [h1 r]
          exact if_congr himg.symm rfl rfl
      · exact Finset.erase_subset_erase _ h2
    · exact ⟨h1, h2⟩
  | disconnect sock => exact ⟨h1, h2⟩

lemma wsInv_run (tr : List WSAction) : WSInv (runWS tr) := by
  rw [runWS]
  suffices h : ∀ (l : List WSAction) (st : WSState), WSInv st → WSInv (l.foldl wsStep st) by
    exact h tr initialWS wsInv_initial
  intro l
  induction l with
  | nil => exact fun st h => h
  | cons a l ih => exact fun st h => ih _ (wsInv_step h a)

lemma wsInv_busSubCount_le_one {st : WSState} (h : WSInv st) (r : String) :
    st.busSubCount r ≤ 1 := by
  rw [h.1 r]
  split
  · exact le_refl 1
  · exact Nat.zero_le 1

/-! ### Helper lemmas: mock quote fields -/

lemma getMockQuote_dataSource (symbol : String) (now : ℝ) (stored : Option ℝ) (r : MockRand) :
    (getMockQuote symbol now stored r).1.dataSource = DataSource.mock := rfl

lemma getMockQuote_isRealTime (symbol : String) (now : ℝ) (stored : Option ℝ) (r : MockRand) :
    (getMockQuote symbol now stored r).1.isRealTime = false := rfl

lemma getMockQuote_symbol (symbol : String) (now : ℝ) (stored : Option ℝ) (r : MockRand) :
    (getMockQuote symbol now stored r).1.symbol = toUpperCase symbol := rfl

lemma getMockQuote_price_round (symbol : String) (now : ℝ) (stored : Option ℝ) (r : MockRand) :
    (getMockQuote symbol now stored r).1.price = round2 (getMockQuote symbol now stored r).2 :=
  rfl

lemma getMockQuote_previousClose (symbol : String) (now : ℝ) (stored : Option ℝ) (r : MockRand) :
    (getMockQuote symbol now stored r).1.previousClose =
      round2 (getSymbolParameters symbol).basePrice := rfl

lemma getMockQuote_change (symbol : String) (now : ℝ) (stored : Option ℝ) (r : MockRand) :
    (getMockQuote symbol now stored r).1.change =
      round2 ((getMockQuote symbol now stored r).2 - (getSymbolParameters symbol).basePrice) :=
  rfl

lemma getMockQuote_changePercent (symbol : String) (now : ℝ) (stored : Option ℝ) (r : MockRand) :
    (getMockQuote symbol now stored r).1.changePercent =
      round2 (((getMockQuote symbol now stored r).2 - (getSymbolParameters symbol).basePrice) /
        (getSymbolParameters symbol).basePrice * 100) := rfl

lemma getMockQuote_openPrice (symbol : String) (now : ℝ) (stored : Option ℝ) (r : MockRand) :
    (getMockQuote symbol now stored r).1.openPrice =
      round2 ((getSymbolParameters symbol).basePrice *
        (1 + randomNormal 0 0.005 r.o1 r.o2)) := rfl

lemma getMockQuote_high (symbol : String) (now : ℝ) (stored : Option ℝ) (r : MockRand) :
    (getMockQuote symbol now stored r).1.high =
      round2 (max (getMockQuote symbol now stored r).2
          (max ((getSymbolParameters symbol).basePrice * (1 + randomNormal 0 0.005 r.o1 r.o2))
            (stored.getD (getSymbolParameters symbol).basePrice)) * (1 + r.rh * 0.005)) := rfl

lemma getMockQuote_low (symbol : String) (now : ℝ) (stored : Option ℝ) (r : MockRand) :
    (getMockQuote symbol now stored r).1.low =
      round2 (min (getMockQuote symbol now stored r).2
          (min ((getSymbolParameters symbol).basePrice * (1 + randomNormal 0 0.005 r.o1 r.o2))
            (stored.getD (getSymbolParameters symbol).basePrice)) * (1 - r.rl * 0.005)) := rfl

/-! ### Helper lemmas: statistics table -/

lemma round2_mul100_int (x : ℝ) : ∃ j : ℤ, 100 * round2 x = (j : ℝ) :=
  ⟨round (100 * x), by rw [round2]; ring⟩

lemma basePrice_int (s : String) : ∃ k : ℤ, (getSymbolParameters s).basePrice = (k : ℝ) := by
  rw [getSymbolParameters]
  split
  · exact ⟨250, by norm_num⟩
  · exact ⟨880, by norm_num⟩
  · exact ⟨180, by norm_num⟩
  · exact ⟨380, by norm_num⟩
  · exact ⟨140, by norm_num⟩
  · exact ⟨170, by norm_num⟩
  · exact ⟨480, by norm_num⟩
  · exact ⟨160, by norm_num⟩
  · exact ⟨150, by norm_num⟩
  · exact ⟨60, by norm_num⟩
  · exact ⟨190, by norm_num⟩
  · exact ⟨35, by norm_num⟩
  · exact ⟨100, by norm_num⟩

lemma getSymbolParameters_aapl_lower : getSymbolParameters "aapl" = ⟨0.12, 0.30, 180⟩ := rfl

lemma getSymbolParameters_AAPL : getSymbolParameters "AAPL" = ⟨0.12, 0.30, 180⟩ := rfl

lemma getSymbolParameters_NVDA : getSymbolParameters "NVDA" = ⟨0.20, 0.50, 880⟩ := rfl

lemma getSymbolParameters_GENERIC : getSymbolParameters "GENERIC" = ⟨0.10, 0.30, 100⟩ := rfl

lemma toUpperCase_aapl : toUpperCase "aapl" = "AAPL" := rfl

/-! ### Claim theorems -/

/-- C1: `getQuote` never fails: for every symbol and every combination of
provider outcomes it is a total function returning a `Quote`. The quote's
`dataSource` is one of the three enumerated values, `isRealTime` is
`true` exactly when the source is not the simulated (`mock`) one, and the
source is determined by walking the priority list: Finnhub if its call
succeeded, else Alpha Vantage if its call succeeded, else the simulation. -/
theorem c1_getQuote_total_enum_realtime (symbol : String) (now : ℝ) (fh : Option FinnhubData)
    (av : Option AVData) (st : String → Option ℝ) (r : MockRand) :
    ((getQuote symbol now fh av st r).1.dataSource = DataSource.finnhub ∨
      (getQuote symbol now fh av st r).1.dataSource = DataSource.alphavantage ∨
      (getQuote symbol now fh av st r).1.dataSource = DataSource.mock) ∧
    ((getQuote symbol now fh av st r).1.isRealTime = true ↔
      (getQuote symbol now fh av st r).1.dataSource ≠ DataSource.mock) ∧
    (getQuote symbol now fh av st r).1.dataSource =
      (match fh.bind (fun d => getQuoteFromFinnhub symbol now d) with
       | some _ => DataSource.finnhub
       | none =>
         match av with
         | some _ => DataSource.alphavantage
         | none => DataSource.mock) := by
  rcases fh with _ | d
  · rcases av with _ | a
    · rw [getQuote_mock]
      simp [getMockQuote_dataSource, getMockQuote_isRealTime]
    · rw [getQuote_av]
      simp [getQuoteFromAlphaVantage]
  · by_cases hc : d.c = 0 ∧ d.pc = 0
    · have hnone : getQuoteFromFinnhub symbol now d = none := by
        rw [getQuoteFromFinnhub, if_pos hc]
      rcases av with _ | a
      · rw [getQuote_finnhub_invalid symbol now d none st r hc]
        rw [getQuote_mock]
        simp [getMockQuote_dataSource, getMockQuote_isRealTime, hnone]
      · rw [getQuote_finnhub_invalid symbol now d (some a) st r hc]
        rw [getQuote_av]
        simp [getQuoteFromAlphaVantage, hnone]
    · rw [getQuote_finnhub symbol now d av st r hc]
      simp [getQuoteFromFinnhub, hc]

/-- C3 counterexample: at a concrete subscribe request the handler's
emission list starts with `price_update` and ends with `subscribed`, so
the claimed order (`subscribed` first, then `price_update`) is false. -/
theorem c3_counterexample :
    ¬ (∀ (rawSymbol : String) (now : ℝ) (fh : Option FinnhubData) (av : Option AVData)
        (st : String → Option ℝ) (r : MockRand), ∃ q room,
          handleSubscribeEvents rawSymbol now fh av st r =
            [SocketEvent.subscribedEvt (toUpperCase rawSymbol) room,
             SocketEvent.priceUpdate q]) := by
  intro hcl
  obtain ⟨q, room, heq⟩ := hcl "AAPL" 0 none none (fun _ => none) ⟨0, 0, 0, 0, 0, 0, 0⟩
  simp [handleSubscribeEvents] at heq

/-- C3 (amended): for every subscribe request the handler emits exactly
two events to the requesting socket, in this order: first `price_update`
carrying the quote just fetched by `getQuote` for the uppercased symbol,
then `subscribed` carrying the uppercased symbol and its room. -/
theorem c3_subscribe_emit_order (rawSymbol : String) (now : ℝ) (fh : Option FinnhubData)
    (av : Option AVData) (st : String → Option ℝ) (r : MockRand) :
    handleSubscribeEvents rawSymbol now fh av st r =
      [SocketEvent.priceUpdate ((getQuote (toUpperCase rawSymbol) now fh av st r).1),
       SocketEvent.subscribedEvt (toUpperCase rawSymbol) (roomOf (toUpperCase rawSymbol))] :=
  rfl

/-- C4 (code bug): with a stable six-symbol active registry and the batch
cap of five, the scheduler always works on `activeSymbols.slice(0, 5)`,
the same prefix on every tick, so the sixth symbol is in the registry yet
is never selected on any tick and never receives fetch/publish/cache
work: the claimed eventual selection of every active symbol fails. -/
theorem c4_starvation :
    "F" ∈ ["A", "B", "C", "D", "E", "F"] ∧
    (∀ tick : ℕ, "F" ∉ tickSelection ["A", "B", "C", "D", "E", "F"] tick) ∧
    "F" ∉ (updatePrices ["A", "B", "C", "D", "E", "F"]).map TickEffect.symbol := by
  refine ⟨by decide, ?_, by decide⟩
  intro tick
  simp only [tickSelection]
  decide

/-- C5 (amended): with zero drift and zero volatility the GBM step is the
identity up to the trailing 2-decimal rounding: it returns `round2 p` for
every price and every time step, hence returns `p` itself exactly
whenever `p` is an integer multiple of 0.01. -/
theorem c5_zero_drift_vol_rounds (p dt u1 u2 : ℝ) :
    generateNextPrice p 0 0 dt u1 u2 = round2 p ∧
    (∀ k : ℤ, p = (k : ℝ) / 100 → generateNextPrice p 0 0 dt u1 u2 = p) := by
  refine ⟨generateNextPrice_zero_drift_vol p dt u1 u2, fun k hk => ?_⟩
  rw [generateNextPrice_zero_drift_vol]
  refine round2_eq_self p k ?_
  rw [hk]
  field_simp

/-- C5 witness: the amended theorem evaluated at `p = 3`, `dt = 1`, with
`k = 300` discharging the multiple-of-0.01 hypothesis. -/
theorem c5_zero_drift_vol_rounds_witness :
    ((3 : ℝ) = ((300 : ℤ) : ℝ) / 100) ∧ generateNextPrice 3 0 0 1 0 0 = 3 :=
  ⟨by norm_num, (c5_zero_drift_vol_rounds 3 1 0 0).2 300 (by norm_num)⟩

/-- C5 counterexample: at the positive price `p = 100.005` and `dt = 1`,
`nextPrice(p, 0, 0, dt)` returns `100.01 ≠ p`: "returns `p` exactly"
fails for prices that are not multiples of 0.01, because of the final
2-decimal rounding. -/
theorem c5_counterexample :
    (0 : ℝ) < 20001 / 200 ∧ (0 : ℝ) ≤ 1 ∧
      generateNextPrice (20001 / 200) 0 0 1 0 0 ≠ 20001 / 200 := by
  refine ⟨by norm_num, by norm_num, ?_⟩
  rw [generateNextPrice_zero_drift_vol]
  norm_num [round2, round_eq]

/-- C8: one scheduler tick performs fetch/publish/cache work only for
symbols in the first `MAX_SYMBOLS_PER_UPDATE = 5` elements of the active
list read at that tick (hence for at most 5 symbols, all active), and an
empty registry produces no effects at all: no provider calls and no
publishes. -/
theorem c8_tick_bounded (active : List String) :
    (∀ e, e ∈ updatePrices active →
      TickEffect.symbol e ∈ active.take MAX_SYMBOLS_PER_UPDATE ∧ TickEffect.symbol e ∈ active) ∧
    (active.take MAX_SYMBOLS_PER_UPDATE).length ≤ 5 ∧
    updatePrices [] = [] := by
  refine ⟨?_, ?_, rfl⟩
  · intro e he
    rw [updatePrices] at he
    by_cases hne : active.isEmpty
    · rw [if_pos hne] at he
      exact absurd he (List.not_mem_nil e)
    · rw [if_neg hne] at he
      rw [List.mem_flatten] at he
      obtain ⟨l, hl, hel⟩ := he
      rw [List.mem_map] at hl
      obtain ⟨s, hs, rfl⟩ := hl
      have hsym : TickEffect.symbol e = s := by
        simp only [fetchAndPublishEffects, List.mem_cons, List.not_mem_nil, or_false] at hel
        rcases hel with rfl | rfl | rfl <;> rfl
      rw [hsym]
      exact ⟨hs, List.take_subset _ _ hs⟩
  · rw [List.length_take]
    exact min_le_left _ _

/-- C8 witness: the theorem applied to the two-symbol registry
`["A", "B"]` and the concrete fetch effect for `"A"`. -/
theorem c8_tick_bounded_witness :
    TickEffect.fetchQuote "A" ∈ updatePrices ["A", "B"] ∧
    (TickEffect.symbol (TickEffect.fetchQuote "A") ∈ ["A", "B"].take MAX_SYMBOLS_PER_UPDATE ∧
      TickEffect.symbol (TickEffect.fetchQuote "A") ∈ ["A", "B"]) :=
  ⟨by decide, (c8_tick_bounded ["A", "B"]).1 (TickEffect.fetchQuote "A") (by decide)⟩

/-- C6: simulated quotes for one symbol form a continuous path. With both
providers failing: a first `getQuote` call with no stored state for the
symbol seeds its GBM step from the static base price, stores under the
symbol exactly the (rounded) price it returns, and a second call seeds
its GBM step from that returned price — not from the base price. -/
theorem c6_mock_path_continuity (sym : String) (now1 now2 : ℝ) (st : String → Option ℝ)
    (r1 r2 : MockRand) (hfresh : st sym = none) :
    (getQuote sym now1 none none st r1).1.price =
      generateNextPrice (getSymbolParameters sym).basePrice (getSymbolParameters sym).drift
        (getSymbolParameters sym).volatility (1 / (252 * 78)) r1.g1 r1.g2 ∧
    (getQuote sym now1 none none st r1).2 sym =
      some ((getQuote sym now1 none none st r1).1.price) ∧
    (getQuote sym now2 none none ((getQuote sym now1 none none st r1).2) r2).1.price =
      generateNextPrice ((getQuote sym now1 none none st r1).1.price)
        (getSymbolParameters sym).drift (getSymbolParameters sym).volatility
        (1 / (252 * 78)) r2.g1 r2.g2 := by
  have e1 : getQuote sym now1 none none st r1 =
      ((getMockQuote sym now1 (st sym) r1).1,
        fun s => if s = sym then some (getMockQuote sym now1 (st sym) r1).2 else st s) :=
    getQuote_mock sym now1 st r1
  refine ⟨?_, ?_, ?_⟩
  · rw [e1]
    rw [getMockQuote_price, hfresh]
    rfl
  · rw [e1]
    simp [getMockQuote_snd_eq_price]
  · rw [e1]
    rw [getQuote_mock, getMockQuote_price]
    simp [getMockQuote_snd_eq_price]

/-- C6 witness: the theorem applied to symbol `"AAPL"` and the empty
stored-state map, whose lookup is literally `none`. -/
theorem c6_mock_path_continuity_witness :
    ((fun _ : String => (none : Option ℝ)) "AAPL" = none) ∧
    (getQuote "AAPL" 0 none none (fun _ => none) ⟨1, 0, 1, 0, 0, 0, 0⟩).1.price =
      generateNextPrice (getSymbolParameters "AAPL").basePrice
        (getSymbolParameters "AAPL").drift (getSymbolParameters "AAPL").volatility
        (1 / (252 * 78)) 1 0 :=
  ⟨rfl,
    (c6_mock_path_continuity "AAPL" 0 0 (fun _ => none) ⟨1, 0, 1, 0, 0, 0, 0⟩
      ⟨1, 0, 1, 0, 0, 0, 0⟩ rfl).1⟩

/-- C10: the simulation state is keyed by the raw symbol string passed to
`getQuote`, without case normalisation. With all providers failing,
`getQuote "aapl"` and a following `getQuote "AAPL"` both use the AAPL
statistics (base price 180) and both return quotes whose `symbol` field
is the uppercase `"AAPL"`, yet the second call finds no stored state
under `"AAPL"` and seeds afresh from the base price, while the first
call's path stays stored under `"aapl"` untouched: two independent
simulated price paths. -/
theorem c10_mock_state_raw_key (now1 now2 : ℝ) (r1 r2 : MockRand) :
    (getQuote "aapl" now1 none none (fun _ => none) r1).1.symbol = "AAPL" ∧
    (getQuote "aapl" now1 none none (fun _ => none) r1).1.price =
      generateNextPrice 180 0.12 0.30 (1 / (252 * 78)) r1.g1 r1.g2 ∧
    (getQuote "aapl" now1 none none (fun _ => none) r1).2 "AAPL" = none ∧
    (getQuote "AAPL" now2 none none
        ((getQuote "aapl" now1 none none (fun _ => none) r1).2) r2).1.price =
      generateNextPrice 180 0.12 0.30 (1 / (252 * 78)) r2.g1 r2.g2 ∧
    (getQuote "AAPL" now2 none none
        ((getQuote "aapl" now1 none none (fun _ => none) r1).2) r2).2 "aapl" =
      some ((getQuote "aapl" now1 none none (fun _ => none) r1).1.price) := by
  have e1 : getQuote "aapl" now1 none none (fun _ => none) r1 =
      ((getMockQuote "aapl" now1 none r1).1,
        fun s => if s = "aapl" then some (getMockQuote "aapl" now1 none r1).2 else none) :=
    getQuote_mock "aapl" now1 (fun _ => none) r1
  have hne : ("AAPL" : String) ≠ "aapl" := by decide
  have hst1 : (getQuote "aapl" now1 none none (fun _ => none) r1).2 "AAPL" = none := by
    rw [e1]
    simp only [if_neg hne]
  refine ⟨?_, ?_, hst1, ?_, ?_⟩
  · rw [e1, getMockQuote_symbol, toUpperCase_aapl]
  · rw [e1, getMockQuote_price, getSymbolParameters_aapl_lower]
    rfl
  · rw [getQuote_mock, getMockQuote_price, hst1, getSymbolParameters_AAPL]
    rfl
  · rw [getQuote_mock]
    simp only [if_neg (by decide : ("aapl" : String) ≠ "AAPL")]
    rw [e1]
    simp [getMockQuote_snd_eq_price]

/-! ### C2 helper lemmas -/

lemma c2_mock_props (symbol : String) (now : ℝ) (stored : Option ℝ) (r : MockRand) :
    ((getMockQuote symbol now stored r).1.dataSource ≠ DataSource.alphavantage →
      |(getMockQuote symbol now stored r).1.change -
        ((getMockQuote symbol now stored r).1.price -
          (getMockQuote symbol now stored r).1.previousClose)| < 1 / 1000000) ∧
    ((getMockQuote symbol now stored r).1.dataSource = DataSource.finnhub →
      (getMockQuote symbol now stored r).1.previousClose ≠ 0 →
      (getMockQuote symbol now stored r).1.changePercent =
        (getMockQuote symbol now stored r).1.change /
          (getMockQuote symbol now stored r).1.previousClose * 100) ∧
    ((getMockQuote symbol now stored r).1.dataSource = DataSource.mock →
      (getMockQuote symbol now stored r).1.previousClose ≠ 0 →
      |(getMockQuote symbol now stored r).1.changePercent -
        (getMockQuote symbol now stored r).1.change /
          (getMockQuote symbol now stored r).1.previousClose * 100| ≤ 1 / 200) := by
  obtain ⟨k, hk⟩ := basePrice_int symbol
  obtain ⟨j, hj⟩ : ∃ j : ℤ, 100 * (getMockQuote symbol now stored r).2 = (j : ℝ) := by
    rw [getMockQuote_snd, generateNextPrice]
    exact round2_mul100_int _
  have hprev : (getMockQuote symbol now stored r).1.previousClose =
      (getSymbolParameters symbol).basePrice := by
    rw [getMockQuote_previousClose]
    refine round2_eq_self _ (100 * k) ?_
    rw [hk]
    push_cast
    ring
  have hprice : (getMockQuote symbol now stored r).1.price =
      (getMockQuote symbol now stored r).2 := by
    rw [getMockQuote_price_round]
    exact round2_eq_self _ j hj
  have hchange : (getMockQuote symbol now stored r).1.change =
      (getMockQuote symbol now stored r).2 - (getSymbolParameters symbol).basePrice := by
    rw [getMockQuote_change]
    refine round2_eq_self _ (j - 100 * k) ?_
    rw [mul_sub, hj, hk]
    push_cast
    ring
  refine ⟨fun _ => ?_, fun hds => ?_, fun _ hpc => ?_⟩
  · rw [hchange, hprice, hprev]
    rw [show (getMockQuote symbol now stored r).2 - (getSymbolParameters symbol).basePrice -
        ((getMockQuote symbol now stored r).2 - (getSymbolParameters symbol).basePrice) = 0 from
      by ring]
    rw [abs_zero]
    norm_num
  · rw [getMockQuote_dataSource] at hds
    exact absurd hds (by decide)
  · rw [getMockQuote_changePercent, hchange, hprev]
    exact abs_round2_sub_le _

lemma c2_av_props (symbol : String) (now : ℝ) (a : AVData) :
    ((getQuoteFromAlphaVantage symbol now a).dataSource ≠ DataSource.alphavantage →
      |(getQuoteFromAlphaVantage symbol now a).change -
        ((getQuoteFromAlphaVantage symbol now a).price -
          (getQuoteFromAlphaVantage symbol now a).previousClose)| < 1 / 1000000) ∧
    ((getQuoteFromAlphaVantage symbol now a).dataSource = DataSource.finnhub →
      (getQuoteFromAlphaVantage symbol now a).previousClose ≠ 0 →
      (getQuoteFromAlphaVantage symbol now a).changePercent =
        (getQuoteFromAlphaVantage symbol now a).change /
          (getQuoteFromAlphaVantage symbol now a).previousClose * 100) ∧
    ((getQuoteFromAlphaVantage symbol now a).dataSource = DataSource.mock →
      (getQuoteFromAlphaVantage symbol now a).previousClose ≠ 0 →
      |(getQuoteFromAlphaVantage symbol now a).changePercent -
        (getQuoteFromAlphaVantage symbol now a).change /
          (getQuoteFromAlphaVantage symbol now a).previousClose * 100| ≤ 1 / 200) := by
  refine ⟨fun hds => ?_, fun hds => ?_, fun hds => ?_⟩
  · exact absurd rfl hds
  · simp [getQuoteFromAlphaVantage] at hds
  · simp [getQuoteFromAlphaVantage] at hds

/-- C2 (amended): change/price consistency holds by source, not for all
quotes. Finnhub quotes satisfy `change = price - previousClose` exactly
(so within any positive tolerance) and, for nonzero `previousClose`,
`changePercent = change / previousClose * 100` exactly. Mock quotes
satisfy the change identity exactly, and their `changePercent` is the
exact percentage rounded to two decimals, hence within 0.005 of it —
a bound that can exceed the claimed 1e-4. Alpha Vantage quotes carry the
provider-reported `change` and `changePercent` verbatim, with no relation
to `price - previousClose` enforced by the code. -/
theorem c2_change_consistency_by_source (symbol : String) (now : ℝ) (fh : Option FinnhubData)
    (av : Option AVData) (st : String → Option ℝ) (r : MockRand) :
    ((getQuote symbol now fh av st r).1.dataSource ≠ DataSource.alphavantage →
      |(getQuote symbol now fh av st r).1.change -
        ((getQuote symbol now fh av st r).1.price -
          (getQuote symbol now fh av st r).1.previousClose)| < 1 / 1000000) ∧
    ((getQuote symbol now fh av st r).1.dataSource = DataSource.finnhub →
      (getQuote symbol now fh av st r).1.previousClose ≠ 0 →
      (getQuote symbol now fh av st r).1.changePercent =
        (getQuote symbol now fh av st r).1.change /
          (getQuote symbol now fh av st r).1.previousClose * 100) ∧
    ((getQuote symbol now fh av st r).1.dataSource = DataSource.mock →
      (getQuote symbol now fh av st r).1.previousClose ≠ 0 →
      |(getQuote symbol now fh av st r).1.changePercent -
        (getQuote symbol now fh av st r).1.change /
          (getQuote symbol now fh av st r).1.previousClose * 100| ≤ 1 / 200) := by
  rcases fh with _ | d
  · rcases av with _ | a
    · rw [getQuote_mock]
      exact c2_mock_props symbol now (st symbol) r
    · rw [getQuote_av]
      exact c2_av_props symbol now a
  · by_cases hc : d.c = 0 ∧ d.pc = 0
    · rw [getQuote_finnhub_invalid symbol now d av st r hc]
      rcases av with _ | a
      · rw [getQuote_mock]
        exact c2_mock_props symbol now (st symbol) r
      · rw [getQuote_av]
        exact c2_av_props symbol now a
    · rw [getQuote_finnhub symbol now d av st r hc]
      refine ⟨fun _ => ?_, fun _ hpc => ?_, fun hds => ?_⟩
      · show |(d.c - d.pc) - (d.c - d.pc)| < 1 / 1000000
        rw [sub_self, abs_zero]
        norm_num
      · rfl
      · simp at hds

/-- C2 witness: the amended theorem applied to a successful Finnhub
response with `c = 10`, `pc = 5`, discharging the non-Alpha-Vantage,
Finnhub-source and nonzero-`previousClose` hypotheses there. -/
theorem c2_change_consistency_witness :
    ((getQuote "AAPL" 0 (some ⟨10, 11, 9, 10, 5⟩) none (fun _ => none)
        ⟨0, 0, 0, 0, 0, 0, 0⟩).1.dataSource = DataSource.finnhub ∧
      (getQuote "AAPL" 0 (some ⟨10, 11, 9, 10, 5⟩) none (fun _ => none)
        ⟨0, 0, 0, 0, 0, 0, 0⟩).1.dataSource ≠ DataSource.alphavantage ∧
      (getQuote "AAPL" 0 (some ⟨10, 11, 9, 10, 5⟩) none (fun _ => none)
        ⟨0, 0, 0, 0, 0, 0, 0⟩).1.previousClose ≠ 0) ∧
    |(getQuote "AAPL" 0 (some ⟨10, 11, 9, 10, 5⟩) none (fun _ => none)
        ⟨0, 0, 0, 0, 0, 0, 0⟩).1.change -
      ((getQuote "AAPL" 0 (some ⟨10, 11, 9, 10, 5⟩) none (fun _ => none)
          ⟨0, 0, 0, 0, 0, 0, 0⟩).1.price -
        (getQuote "AAPL" 0 (some ⟨10, 11, 9, 10, 5⟩) none (fun _ => none)
          ⟨0, 0, 0, 0, 0, 0, 0⟩).1.previousClose)| < 1 / 1000000 ∧
    (getQuote "AAPL" 0 (some ⟨10, 11, 9, 10, 5⟩) none (fun _ => none)
        ⟨0, 0, 0, 0, 0, 0, 0⟩).1.changePercent =
      (getQuote "AAPL" 0 (some ⟨10, 11, 9, 10, 5⟩) none (fun _ => none)
          ⟨0, 0, 0, 0, 0, 0, 0⟩).1.change /
        (getQuote "AAPL" 0 (some ⟨10, 11, 9, 10, 5⟩) none (fun _ => none)
          ⟨0, 0, 0, 0, 0, 0, 0⟩).1.previousClose * 100 := by
  have hds : (getQuote "AAPL" 0 (some ⟨10, 11, 9, 10, 5⟩) none (fun _ => none)
      ⟨0, 0, 0, 0, 0, 0, 0⟩).1.dataSource = DataSource.finnhub := by
    rw [getQuote_finnhub "AAPL" 0 ⟨10, 11, 9, 10, 5⟩ none (fun _ => none)
      ⟨0, 0, 0, 0, 0, 0, 0⟩ (by norm_num)]
  have hda : (getQuote "AAPL" 0 (some ⟨10, 11, 9, 10, 5⟩) none (fun _ => none)
      ⟨0, 0, 0, 0, 0, 0, 0⟩).1.dataSource ≠ DataSource.alphavantage := by
    rw [hds]
    decide
  have hpc : (getQuote "AAPL" 0 (some ⟨10, 11, 9, 10, 5⟩) none (fun _ => none)
      ⟨0, 0, 0, 0, 0, 0, 0⟩).1.previousClose ≠ 0 := by
    rw [getQuote_finnhub "AAPL" 0 ⟨10, 11, 9, 10, 5⟩ none (fun _ => none)
      ⟨0, 0, 0, 0, 0, 0, 0⟩ (by norm_num)]
    norm_num
  exact ⟨⟨hds, hda, hpc⟩,
    (c2_change_consistency_by_source "AAPL" 0 (some ⟨10, 11, 9, 10, 5⟩) none (fun _ => none)
      ⟨0, 0, 0, 0, 0, 0, 0⟩).1 hda,
    (c2_change_consistency_by_source "AAPL" 0 (some ⟨10, 11, 9, 10, 5⟩) none (fun _ => none)
      ⟨0, 0, 0, 0, 0, 0, 0⟩).2.1 hds hpc⟩

/-! ### C2 counterexample computation -/

lemma log_ge_one_sub_inv {x : ℝ} (hx : 0 < x) : 1 - 1 / x ≤ Real.log x := by
  have h2 := Real.log_le_sub_one_of_pos (show (0 : ℝ) < 1 / x by positivity)
  rw [Real.log_div one_ne_zero (ne_of_gt hx), Real.log_one] at h2
  linarith

lemma nvdaShock_nonneg : 0 ≤ nvdaShock := by
  rw [nvdaShock]
  apply div_nonneg
  · have h := log_ge_one_sub_inv (show (0 : ℝ) < 88001 / 88000 by norm_num)
    have he : (1 : ℝ) - 1 / (88001 / 88000) = 1 / 88001 := by norm_num
    rw [he] at h
    have hle : ((1 : ℝ) / 5) * (1 / 19656) ≤ 1 / 88001 := by norm_num
    linarith
  · positivity

lemma nvda_randomNormal :
    randomNormal 0 1 (Real.exp (-(nvdaShock ^ 2) / 2)) 0 = nvdaShock := by
  rw [randomNormal, Real.log_exp]
  rw [show (-2 : ℝ) * (-(nvdaShock ^ 2) / 2) = nvdaShock ^ 2 by ring]
  rw [Real.sqrt_sq_eq_abs, abs_of_nonneg nvdaShock_nonneg]
  rw [mul_zero, Real.cos_zero]
  ring

lemma nvda_exponent :
    (0.20 : ℝ) * (1 / (252 * 78)) + 0.50 * Real.sqrt (1 / (252 * 78)) * nvdaShock =
      Real.log (88001 / 88000) := by
  have hs : Real.sqrt ((1 : ℝ) / (252 * 78)) = Real.sqrt (1 / 19656) := by norm_num
  have hpos : (0 : ℝ) < Real.sqrt (1 / 19656) := Real.sqrt_pos.mpr (by norm_num)
  have hb : ((1 : ℝ) / 2) * Real.sqrt (1 / 19656) ≠ 0 := by positivity
  have hcancel : ((1 : ℝ) / 2) * Real.sqrt (1 / 19656) * nvdaShock =
      Real.log (88001 / 88000) - (1 / 5) * (1 / 19656) := by
    rw [nvdaShock, mul_comm, div_mul_cancel₀ _ hb]
  rw [hs]
  rw [show (0.50 : ℝ) * Real.sqrt (1 / 19656) * nvdaShock =
      ((1 : ℝ) / 2) * Real.sqrt (1 / 19656) * nvdaShock by norm_num]
  rw [hcancel]
  rw [show (0.20 : ℝ) * (1 / (252 * 78)) = (1 / 5) * (1 / 19656) by norm_num]
  ring

lemma nvda_mock_snd : (getMockQuote "NVDA" 0 none nvdaRand).2 = 88001 / 100 := by
  rw [getMockQuote_snd, getSymbolParameters_NVDA]
  have hg1 : nvdaRand.g1 = Real.exp (-(nvdaShock ^ 2) / 2) := rfl
  have hg2 : nvdaRand.g2 = 0 := rfl
  rw [hg1, hg2, generateNextPrice, nvda_randomNormal]
  show round2 ((880 : ℝ) * Real.exp
      ((0.20 : ℝ) * (1 / (252 * 78)) + 0.50 * Real.sqrt (1 / (252 * 78)) * nvdaShock)) =
    88001 / 100
  rw [nvda_exponent, Real.exp_log (by norm_num : (0 : ℝ) < 88001 / 88000)]
  rw [show (880 : ℝ) * (88001 / 88000) = 88001 / 100 by norm_num]
  exact round2_eq_self _ 88001 (by norm_num)

lemma nvda_previousClose : (getMockQuote "NVDA" 0 none nvdaRand).1.previousClose = 880 := by
  rw [getMockQuote_previousClose, getSymbolParameters_NVDA]
  show round2 (880 : ℝ) = 880
  exact round2_eq_self _ 88000 (by norm_num)

lemma nvda_change : (getMockQuote "NVDA" 0 none nvdaRand).1.change = 1 / 100 := by
  rw [getMockQuote_change, nvda_mock_snd, getSymbolParameters_NVDA]
  show round2 ((88001 : ℝ) / 100 - 880) = 1 / 100
  rw [show (88001 : ℝ) / 100 - 880 = 1 / 100 by norm_num]
  exact round2_eq_self _ 1 (by norm_num)

lemma nvda_changePercent : (getMockQuote "NVDA" 0 none nvdaRand).1.changePercent = 0 := by
  rw [getMockQuote_changePercent, nvda_mock_snd, getSymbolParameters_NVDA]
  show round2 (((88001 : ℝ) / 100 - 880) / 880 * 100) = 0
  rw [show ((88001 : ℝ) / 100 - 880) / 880 * 100 = 1 / 880 by norm_num]
  rw [round2]
  norm_num [round_eq]

/-- C2 counterexample: two concrete `getQuote` runs violate the claimed
invariant. (a) With Finnhub failed and an Alpha Vantage payload reporting
`price = 10`, `previousClose = 5`, `change = 100`, the returned quote has
`|change - (price - previousClose)| = 95 ≥ 1e-6`: the code takes the
provider's `change` verbatim and never checks consistency. (b) With all
providers failed, `getQuote "NVDA"` under the in-range random samples
`nvdaRand` returns price 880.01 and change 0.01, but `changePercent` is
`0.01/880*100 ≈ 0.0011` rounded to two decimals, i.e. `0`, so
`|changePercent - change/previousClose*100| = 1/880 ≥ 1e-4`. -/
theorem c2_counterexample :
    (¬ |(getQuote "AAPL" 0 none (some ⟨10, 11, 9, 10, 1000, 5, 100, 50⟩) (fun _ => none)
          ⟨0, 0, 0, 0, 0, 0, 0⟩).1.change -
        ((getQuote "AAPL" 0 none (some ⟨10, 11, 9, 10, 1000, 5, 100, 50⟩) (fun _ => none)
            ⟨0, 0, 0, 0, 0, 0, 0⟩).1.price -
          (getQuote "AAPL" 0 none (some ⟨10, 11, 9, 10, 1000, 5, 100, 50⟩) (fun _ => none)
            ⟨0, 0, 0, 0, 0, 0, 0⟩).1.previousClose)| < 1 / 1000000) ∧
    ((getQuote "NVDA" 0 none none (fun _ => none) nvdaRand).1.previousClose ≠ 0 ∧
      ¬ |(getQuote "NVDA" 0 none none (fun _ => none) nvdaRand).1.changePercent -
          (getQuote "NVDA" 0 none none (fun _ => none) nvdaRand).1.change /
            (getQuote "NVDA" 0 none none (fun _ => none) nvdaRand).1.previousClose * 100|
        < 1 / 10000) := by
  refine ⟨?_, ?_, ?_⟩
  · rw [getQuote_av]
    show ¬ |(100 : ℝ) - (10 - 5)| < 1 / 1000000
    rw [show (100 : ℝ) - (10 - 5) = 95 by norm_num]
    rw [abs_of_pos (by norm_num : (0 : ℝ) < 95)]
    norm_num
  · rw [getQuote_mock]
    show (getMockQuote "NVDA" 0 none nvdaRand).1.previousClose ≠ 0
    rw [nvda_previousClose]
    norm_num
  · rw [getQuote_mock]
    show ¬ |(getMockQuote "NVDA" 0 none nvdaRand).1.changePercent -
        (getMockQuote "NVDA" 0 none nvdaRand).1.change /
          (getMockQuote "NVDA" 0 none nvdaRand).1.previousClose * 100| < 1 / 10000
    rw [nvda_changePercent, nvda_change, nvda_previousClose]
    rw [show (0 : ℝ) - 1 / 100 / 880 * 100 = -(1 / 880) by norm_num]
    rw [abs_neg, abs_of_pos (by norm_num : (0 : ℝ) < 1 / 880)]
    norm_num

/-- C7: per process instance and per symbol, at most one upstream bus
subscription ever exists. In every state reachable from a fresh service
instance: (1) every Redis channel has at most one live upstream
subscription; (2) a subscribe for an already-active symbol changes
neither the upstream subscription count nor the subscribed-symbol set nor
the active-symbol registry — only the first local subscriber creates the
upstream subscription; (3) for an active symbol, an unsubscribe tears the
upstream subscription down (and removes the symbol from the registry)
exactly when the leaving socket was the last member of the symbol's
room. -/
theorem c7_single_upstream_subscription (tr : List WSAction) :
    (∀ r : String, (runWS tr).busSubCount r ≤ 1) ∧
    (∀ (sock : ℕ) (sym : String), toUpperCase sym ∈ (runWS tr).subscribedSymbols →
      (wsStep (runWS tr) (WSAction.subscribe sock sym)).busSubCount = (runWS tr).busSubCount ∧
      (wsStep (runWS tr) (WSAction.subscribe sock sym)).subscribedSymbols =
        (runWS tr).subscribedSymbols ∧
      (wsStep (runWS tr) (WSAction.subscribe sock sym)).activeSymbols =
        (runWS tr).activeSymbols) ∧
    (∀ (sock : ℕ) (sym : String), toUpperCase sym ∈ (runWS tr).subscribedSymbols →
      (((wsStep (runWS tr) (WSAction.unsubscribe sock sym)).busSubCount
            (roomOf (toUpperCase sym)) = 0 ∧
        toUpperCase sym ∉ (wsStep (runWS tr) (WSAction.unsubscribe sock sym)).activeSymbols) ↔
      ((runWS tr).members (roomOf (toUpperCase sym))).erase sock = ∅)) := by
  have hinv := wsInv_run tr
  refine ⟨fun r => wsInv_busSubCount_le_one hinv r, fun sock sym hmem => ?_, fun sock sym hmem => ?_⟩
  · simp only [wsStep]
    rw [if_pos hmem]
    exact ⟨rfl, rfl, rfl⟩
  · constructor
    · intro h
      by_cases hemp : ((runWS tr).members (roomOf (toUpperCase sym))).erase sock = ∅
      · exact hemp
      · exfalso
        have hb1 : (runWS tr).busSubCount (roomOf (toUpperCase sym)) = 1 := by
          rw [hinv.1, if_pos (Finset.mem_image_of_mem roomOf hmem)]
        have hstep : (wsStep (runWS tr) (WSAction.unsubscribe sock sym)).busSubCount
            (roomOf (toUpperCase sym)) = 1 := by
          simp only [wsStep]
          rw [if_neg hemp]
          exact hb1
        have h0 := h.1
        rw [hstep] at h0
        exact one_ne_zero h0
    · intro hemp
      constructor
      · simp only [wsStep]
        rw [if_pos hemp]
        simp
      · simp only [wsStep]
        rw [if_pos hemp]
        exact Finset.not_mem_erase _ _

/-- C7 witness: after the trace `[subscribe 0 "aapl"]` the symbol `AAPL`
is active, and a second subscribe by another socket leaves the upstream
subscription count function unchanged. -/
theorem c7_single_upstream_subscription_witness :
    toUpperCase "AAPL" ∈ (runWS [WSAction.subscribe 0 "aapl"]).subscribedSymbols ∧
    (wsStep (runWS [WSAction.subscribe 0 "aapl"]) (WSAction.subscribe 1 "AAPL")).busSubCount =
      (runWS [WSAction.subscribe 0 "aapl"]).busSubCount :=
  ⟨by decide,
    ((c7_single_upstream_subscription [WSAction.subscribe 0 "aapl"]).2.1 1 "AAPL"
      (by decide)).1⟩

/-! ### C9: rounding-compatible clamp bounds -/

lemma round2_clamp_low (P O L c : ℝ) (hP : 0 ≤ P) (hO : 0 ≤ O) (hL : 0 ≤ L) (hc : 0 ≤ c) :
    round2 (min P (min O L) * (1 - c)) ≤ min (round2 O) (round2 P) := by
  have hm0 : 0 ≤ min P (min O L) := le_min hP (le_min hO hL)
  have h1 : min P (min O L) * (1 - c) ≤ min P (min O L) :=
    mul_le_of_le_one_right hm0 (by linarith)
  have h2 : min P (min O L) ≤ min O P :=
    le_min (le_trans (min_le_right _ _) (min_le_left _ _)) (min_le_left _ _)
  calc round2 (min P (min O L) * (1 - c)) ≤ round2 (min O P) :=
        round2_mono (le_trans h1 h2)
    _ = min (round2 O) (round2 P) := round2_min O P

lemma round2_clamp_high (P O L c : ℝ) (hP : 0 ≤ P) (hc : 0 ≤ c) :
    max (round2 O) (round2 P) ≤ round2 (max P (max O L) * (1 + c)) := by
  have hM0 : 0 ≤ max P (max O L) := le_trans hP (le_max_left _ _)
  have h1 : max P (max O L) ≤ max P (max O L) * (1 + c) :=
    le_mul_of_one_le_right hM0 (by linarith)
  have h2 : max O P ≤ max P (max O L) :=
    max_le (le_trans (le_max_left O L) (le_max_right _ _)) (le_max_left _ _)
  calc max (round2 O) (round2 P) = round2 (max O P) := (round2_max O P).symm
    _ ≤ round2 (max P (max O L) * (1 + c)) := round2_mono (le_trans h2 h1)

/-- C9 (amended): the simulated quote's bounds
`low ≤ min(open, price) ≤ max(open, price) ≤ high` hold for random
samples in the generator's intended ranges — the high/low `Math.random()`
samples nonnegative — provided the open perturbation leaves the raw open
price nonnegative and the seed price is nonnegative. (Without the
nonnegativity proviso the low bound can fail, because the normal shock of
the open perturbation is unbounded below; see the counterexample.) -/
theorem c9_clamp_bounds (symbol : String) (now : ℝ) (stored : Option ℝ) (r : MockRand)
    (hrh : 0 ≤ r.rh) (hrl : 0 ≤ r.rl)
    (hlast : 0 ≤ stored.getD (getSymbolParameters symbol).basePrice)
    (hopen : 0 ≤ (getSymbolParameters symbol).basePrice *
      (1 + randomNormal 0 0.005 r.o1 r.o2)) :
    (getMockQuote symbol now stored r).1.low ≤
      min (getMockQuote symbol now stored r).1.openPrice
        (getMockQuote symbol now stored r).1.price ∧
    min (getMockQuote symbol now stored r).1.openPrice
        (getMockQuote symbol now stored r).1.price ≤
      max (getMockQuote symbol now stored r).1.openPrice
        (getMockQuote symbol now stored r).1.price ∧
    max (getMockQuote symbol now stored r).1.openPrice
        (getMockQuote symbol now stored r).1.price ≤
      (getMockQuote symbol now stored r).1.high := by
  have hP0 : 0 ≤ (getMockQuote symbol now stored r).2 := by
    rw [getMockQuote_snd]
    exact generateNextPrice_nonneg hlast _ _ _ _ _
  refine ⟨?_, min_le_max, ?_⟩
  · rw [getMockQuote_low, getMockQuote_openPrice, getMockQuote_price_round]
    exact round2_clamp_low _ _ _ _ hP0 hopen hlast (mul_nonneg hrl (by norm_num))
  · rw [getMockQuote_high, getMockQuote_openPrice, getMockQuote_price_round]
    exact round2_clamp_high _ _ _ _ hP0 (mul_nonneg hrh (by norm_num))

/-- C9 witness: the amended theorem applied to `"AAPL"` with inert random
samples (`u1 = 1` makes both normal shocks zero), discharging the
nonnegativity hypotheses there. -/
theorem c9_clamp_bounds_witness :
    ((0 : ℝ) ≤ (⟨1, 0, 1, 0, 0, 0, 0⟩ : MockRand).rh ∧
      (0 : ℝ) ≤ (⟨1, 0, 1, 0, 0, 0, 0⟩ : MockRand).rl ∧
      0 ≤ (none : Option ℝ).getD (getSymbolParameters "AAPL").basePrice ∧
      0 ≤ (getSymbolParameters "AAPL").basePrice *
        (1 + randomNormal 0 0.005 (⟨1, 0, 1, 0, 0, 0, 0⟩ : MockRand).o1
          (⟨1, 0, 1, 0, 0, 0, 0⟩ : MockRand).o2)) ∧
    (getMockQuote "AAPL" 0 none ⟨1, 0, 1, 0, 0, 0, 0⟩).1.low ≤
      min (getMockQuote "AAPL" 0 none ⟨1, 0, 1, 0, 0, 0, 0⟩).1.openPrice
        (getMockQuote "AAPL" 0 none ⟨1, 0, 1, 0, 0, 0, 0⟩).1.price := by
  have h1 : (0 : ℝ) ≤ (⟨1, 0, 1, 0, 0, 0, 0⟩ : MockRand).rh := le_refl 0
  have h2 : (0 : ℝ) ≤ (⟨1, 0, 1, 0, 0, 0, 0⟩ : MockRand).rl := le_refl 0
  have h3 : (0 : ℝ) ≤ (none : Option ℝ).getD (getSymbolParameters "AAPL").basePrice := by
    rw [getSymbolParameters_AAPL]
    show (0 : ℝ) ≤ 180
    norm_num
  have h4 : (0 : ℝ) ≤ (getSymbolParameters "AAPL").basePrice *
      (1 + randomNormal 0 0.005 (⟨1, 0, 1, 0, 0, 0, 0⟩ : MockRand).o1
        (⟨1, 0, 1, 0, 0, 0, 0⟩ : MockRand).o2) := by
    rw [getSymbolParameters_AAPL]
    show (0 : ℝ) ≤ 180 * (1 + randomNormal 0 0.005 1 0)
    norm_num [randomNormal, Real.log_one, Real.sqrt_zero, Real.cos_zero]
  exact ⟨⟨h1, h2, h3, h4⟩,
    (c9_clamp_bounds "AAPL" 0 none ⟨1, 0, 1, 0, 0, 0, 0⟩ h1 h2 h3 h4).1⟩

/-! ### C9 counterexample computation -/

lemma c9_g_normal :
    randomNormal 0 1 (Real.exp (-(1 / 353808))) (1 / 2) = -Real.sqrt (1 / 176904) := by
  rw [randomNormal, Real.log_exp]
  rw [show (-2 : ℝ) * -(1 / 353808) = 1 / 176904 by norm_num]
  rw [show (2 * Real.pi * (1 / 2) : ℝ) = Real.pi by ring, Real.cos_pi]
  ring

lemma c9_exponent :
    (0.10 : ℝ) * (1 / (252 * 78)) +
      0.30 * Real.sqrt (1 / (252 * 78)) * -Real.sqrt (1 / 176904) = 0 := by
  have h1 : Real.sqrt ((1 : ℝ) / (252 * 78)) = Real.sqrt (1 / 19656) := by norm_num
  have h2 : Real.sqrt ((1 : ℝ) / 19656) * Real.sqrt (1 / 176904) = 1 / 58968 := by
    rw [← Real.sqrt_mul (by norm_num : (0 : ℝ) ≤ 1 / 19656)]
    rw [show (1 : ℝ) / 19656 * (1 / 176904) = (1 / 58968) ^ 2 by norm_num]
    exact Real.sqrt_sq (by norm_num)
  rw [h1]
  have h3 : (0.30 : ℝ) * Real.sqrt (1 / 19656) * -Real.sqrt (1 / 176904) =
      -(0.30 * (1 / 58968)) := by
    rw [show (0.30 : ℝ) * Real.sqrt (1 / 19656) * -Real.sqrt (1 / 176904) =
        -(0.30 * (Real.sqrt (1 / 19656) * Real.sqrt (1 / 176904))) by ring]
    rw [h2]
  rw [h3]
  norm_num

lemma c9_price : (getMockQuote "GENERIC" 0 none c9Rand).2 = 100 := by
  rw [getMockQuote_snd, getSymbolParameters_GENERIC]
  have hg1 : c9Rand.g1 = Real.exp (-(1 / 353808)) := rfl
  have hg2 : c9Rand.g2 = 1 / 2 := rfl
  rw [hg1, hg2, generateNextPrice, c9_g_normal]
  show round2 ((100 : ℝ) * Real.exp ((0.10 : ℝ) * (1 / (252 * 78)) +
      0.30 * Real.sqrt (1 / (252 * 78)) * -Real.sqrt (1 / 176904))) = 100
  rw [c9_exponent, Real.exp_zero, mul_one]
  exact round2_eq_self _ 10000 (by norm_num)

lemma c9_o_normal : randomNormal 0 0.005 (Real.exp (-(2420000 : ℝ))) (1 / 2) = -11 := by
  rw [randomNormal, Real.log_exp]
  rw [show (-2 : ℝ) * -(2420000 : ℝ) = 2200 ^ 2 by norm_num]
  rw [Real.sqrt_sq (by norm_num : (0 : ℝ) ≤ 2200)]
  rw [show (2 * Real.pi * (1 / 2) : ℝ) = Real.pi by ring, Real.cos_pi]
  norm_num

lemma c9_open : (getMockQuote "GENERIC" 0 none c9Rand).1.openPrice = -1000 := by
  rw [getMockQuote_openPrice, getSymbolParameters_GENERIC]
  have ho1 : c9Rand.o1 = Real.exp (-(2420000 : ℝ)) := rfl
  have ho2 : c9Rand.o2 = 1 / 2 := rfl
  rw [ho1, ho2, c9_o_normal]
  show round2 ((100 : ℝ) * (1 + -11)) = -1000
  rw [show (100 : ℝ) * (1 + -11) = -1000 by norm_num]
  exact round2_eq_self _ (-100000) (by norm_num)

lemma c9_low : (getMockQuote "GENERIC" 0 none c9Rand).1.low = -(1995 / 2) := by
  rw [getMockQuote_low, getSymbolParameters_GENERIC]
  have ho1 : c9Rand.o1 = Real.exp (-(2420000 : ℝ)) := rfl
  have ho2 : c9Rand.o2 = 1 / 2 := rfl
  rw [ho1, ho2, c9_o_normal, c9_price]
  show round2 (min (100 : ℝ) (min ((100 : ℝ) * (1 + -11)) 100) * (1 - 1 / 2 * 0.005)) =
    -(1995 / 2)
  rw [show (100 : ℝ) * (1 + -11) = -1000 by norm_num]
  rw [show min ((-1000) : ℝ) 100 = -1000 from min_eq_left (by norm_num)]
  rw [show min (100 : ℝ) (-1000) = -1000 from min_eq_right (by norm_num)]
  rw [show ((-1000) : ℝ) * (1 - 1 / 2 * 0.005) = -(1995 / 2) by norm_num]
  exact round2_eq_self _ (-99750) (by norm_num)

/-- C9 counterexample: with the in-range random samples `c9Rand` (all
Box-Muller uniforms in `(0, 1]`, `Math.random()` samples in `[0, 1)`),
the default-statistics simulated quote has price 100, open −1000 (the
unbounded normal shock drives the open perturbation to −11), and low
`−997.5 = −1000 · (1 − 0.0025)` — which is *greater* than
`min(open, price) = −1000`: the claimed clamp
`low ≤ min(open, price)` fails. -/
theorem c9_counterexample :
    ¬ ((getMockQuote "GENERIC" 0 none c9Rand).1.low ≤
        min (getMockQuote "GENERIC" 0 none c9Rand).1.openPrice
          (getMockQuote "GENERIC" 0 none c9Rand).1.price) := by
  have hp : (getMockQuote "GENERIC" 0 none c9Rand).1.price = 100 := by
    rw [getMockQuote_price_round, c9_price]
    exact round2_eq_self _ 10000 (by norm_num)
  rw [c9_low, c9_open, hp]
  rw [show min ((-1000) : ℝ) 100 = -1000 from min_eq_left (by norm_num)]
  norm_num
